import Mathlib

/-!
Verification development for the waterfall chart library
(file src/waterfall_ax/waterfall_ax.py).

The library builds a waterfall chart from a list of cumulative step
values.  Its computational core is:

* prep_plot: turns the cumulative values into a table with columns
  Value, delta and base (a pandas DataFrame whose index holds the step
  labels); here the table is a list of PlotRow records, one per
  DataFrame row, with the label carried in the record.
* create_color_list / get_colors: assigns bar and text colors by
  position and by the sign of the delta.
* check_label_type / add_labels: resolves the bar labels from a value
  that may be a bool, a string or a list (any other type is rejected).
* plot_waterfall / plot_bars / plot_link_lines: the drawing driver.
  Drawing calls on the matplotlib Axes object are modelled as an
  explicit list of AxOp operations appended in program order; an
  exception is modelled as an Option String carried next to the
  operations that were already issued when it was raised.

Numbers are modelled as rationals (the Python code computes with
floats, treated as exact reals by the specification).
-/

/-- One row of the plotting DataFrame built by prep_plot.  The
DataFrame columns Value, delta and base become fields; the DataFrame
index entry (the step label) becomes the label field. -/
structure PlotRow where
  label : String
  value : ℚ
  delta : ℚ
  base  : ℚ
deriving Repr, DecidableEq

/-- The chart object after initialisation.  metric_col and
last_step_label already hold the defaulted values computed by the
constructor; the delta and base column names are the fixed strings
delta and base and are not carried. -/
structure WaterfallChart where
  step_values : List ℚ
  step_names : List String
  metric_col : String
  last_step_label : String
deriving Repr, DecidableEq

/-- The constructor of WaterfallChart: keeps step_names only when
non-empty, otherwise generates Step_1 .. Step_n; defaults metric_name
to Value and last_step_label to Final Value when given as empty
strings. -/
def WaterfallChart.init (step_values : List ℚ) (step_names : List String)
    (metric_name : String) (last_step_label : String) : WaterfallChart :=
  { step_values := step_values
    step_names := if step_names.length > 0 then step_names
      else (List.range step_values.length).map (fun x => "Step_" ++ toString (x + 1))
    metric_col := if metric_name ≠ "" then metric_name else "Value"
    last_step_label := if last_step_label ≠ "" then last_step_label else "Final Value" }

/-- The step deltas: pd.Series(values).diff().fillna(pd.Series(values)).
diff produces NaN at index 0 (filled back with values[0]) and
values[i] - values[i-1] at index i for i at least 1. -/
def stepDeltas : List ℚ → List ℚ
  | [] => []
  | v :: vs => v :: List.zipWith (fun cur prev => cur - prev) vs (v :: vs)

/-- Assembles the rows of the plotting table from the four column
lists (the DataFrame holds them aligned; all four lists have equal
length whenever the constructor accepted them). -/
def zip4 (ls : List String) (vs ds bs : List ℚ) : List PlotRow :=
  ((ls.zip vs).zip (ds.zip bs)).map (fun p => ⟨p.1.1, p.1.2, p.2.1, p.2.2⟩)

/-- prep_plot: builds the plotting table.  On an empty step_values
list, the Python expression step_values[-1] raises IndexError.  The
pandas DataFrame constructor raises a ValueError-style exception when
the number of column names differs from the width of the data rows
(here: when len(step_names) + 1 differs from len(step_values) + 1).
Otherwise the table is: the values plus a repeated final value, the
deltas plus the final value, and the base column
df[Value].shift(1).fillna(0) with its last entry overwritten by 0. -/
def WaterfallChart.prep_plot (self : WaterfallChart) : Except String (List PlotRow) :=
  match self.step_values with
  | [] => Except.error "IndexError: list index out of range"
  | v :: vs =>
    let values := v :: vs
    let lastv := vs.getLastD v
    let cols := self.step_names ++ [self.last_step_label]
    if cols.length = values.length + 1 then
      let metric := values ++ [lastv]
      let deltas := stepDeltas values ++ [lastv]
      let bases := (0 :: metric.dropLast).dropLast ++ [0]
      Except.ok (zip4 cols metric deltas bases)
    else
      Except.error "ValueError: columns passed, passed data had a different number of columns"

/-- The color_kwargs dictionary: each recognised key either present or
absent. -/
structure ColorKwargs where
  c_bar_pos : Option String
  c_bar_neg : Option String
  c_bar_start : Option String
  c_bar_end : Option String
  c_text_pos : Option String
  c_text_neg : Option String
  c_text_start : Option String
  c_text_end : Option String
deriving Repr, DecidableEq

/-- The empty color_kwargs dictionary. -/
def ColorKwargs.empty : ColorKwargs :=
  ⟨none, none, none, none, none, none, none, none⟩

/-- The eight resolved colors returned by get_colors. -/
structure Colors where
  c_bar_pos : String
  c_bar_neg : String
  c_bar_start : String
  c_bar_end : String
  c_text_pos : String
  c_text_neg : String
  c_text_start : String
  c_text_end : String
deriving Repr, DecidableEq

/-- get_colors: each color is looked up in color_kwargs with a
default.  The default for the very first bar is the matplotlib color
shorthand c. -/
def get_colors (color_kwargs : ColorKwargs) : Colors :=
  { c_bar_pos := color_kwargs.c_bar_pos.getD "seagreen"
    c_bar_neg := color_kwargs.c_bar_neg.getD "salmon"
    c_bar_start := color_kwargs.c_bar_start.getD "c"
    c_bar_end := color_kwargs.c_bar_end.getD "grey"
    c_text_pos := color_kwargs.c_text_pos.getD "darkgreen"
    c_text_neg := color_kwargs.c_text_neg.getD "maroon"
    c_text_start := color_kwargs.c_text_start.getD "black"
    c_text_end := color_kwargs.c_text_end.getD "black" }

/-- create_color_list: mid_values is the delta column without its
first and last entries; the bar colors are the start color, then the
sign-resolved color of each mid value, then the end color; text colors
likewise. -/
def create_color_list (df_plot : List PlotRow) (color_kwargs : ColorKwargs) :
    List String × List String :=
  let cs := get_colors color_kwargs
  let mid_values := ((df_plot.map PlotRow.delta).drop 1).dropLast
  ([cs.c_bar_start]
     ++ mid_values.map (fun x => if x < 0 then cs.c_bar_neg else cs.c_bar_pos)
     ++ [cs.c_bar_end],
   [cs.c_text_start]
     ++ mid_values.map (fun x => if x < 0 then cs.c_text_neg else cs.c_text_pos)
     ++ [cs.c_text_end])

/-- One drawing call issued on the Axes object. -/
inductive AxOp
  | bar (x : String) (height : ℚ) (bottom : ℚ) (color : String)
  | line (ys : List (Option ℚ))
  | text (x : ℕ) (y : ℚ) (label : String) (color : String)
deriving Repr, DecidableEq

/-- Whether an operation is a bar drawing call. -/
def AxOp.isBar : AxOp → Bool
  | .bar _ _ _ _ => true
  | _ => false

/-- Whether an operation is a line drawing call. -/
def AxOp.isLine : AxOp → Bool
  | .line _ => true
  | _ => false

/-- Whether an operation is a text drawing call. -/
def AxOp.isText : AxOp → Bool
  | .text _ _ _ _ => true
  | _ => false

/-- plot_bars: one ax.bar call drawing, for each row, a bar at the
row label with height delta, bottom base, and the matching entry of
the bar color list. -/
def plot_bars (ax : List AxOp) (df_plot : List PlotRow)
    (color_kwargs : ColorKwargs) : List AxOp :=
  let barcolors := (create_color_list df_plot color_kwargs).1
  ax ++ (df_plot.zip barcolors).map
    (fun p => AxOp.bar p.1.label p.1.delta p.1.base p.2)

/-- Each element repeated three times, in order: series.repeat(3). -/
def repeat3 : List ℚ → List ℚ
  | [] => []
  | x :: xs => x :: x :: x :: repeat3 xs

/-- The connector line data of plot_link_lines: the metric column
repeated three times, shifted by two (NaN-filled at the front, modelled
as none), every third entry starting at index 1 nulled except the last
entry, then the first and last entries dropped. -/
def linkLines (metric : List ℚ) : List (Option ℚ) :=
  let rep := repeat3 metric
  let shifted := (List.replicate 2 (none : Option ℚ) ++ rep.map some).take rep.length
  let nulled := shifted.mapIdx
    (fun i v => if i % 3 = 1 ∧ i < shifted.length - 1 then none else v)
  (nulled.drop 1).dropLast

/-- plot_link_lines: a single ax.plot call with the connector data. -/
def plot_link_lines (ax : List AxOp) (df_plot : List PlotRow) : List AxOp :=
  ax ++ [AxOp.line (linkLines (df_plot.map PlotRow.value))]

/-- The bar_labels argument: a Python value that is a bool, a str, a
list, or anything else (carrying only its truthiness, all the code
inspects about it). -/
inductive BarLabels
  | bool (b : Bool)
  | str (s : String)
  | list (l : List String)
  | other (truthy : Bool)
deriving Repr, DecidableEq

/-- Python truthiness of a bar_labels value: False, the empty string
and the empty list are falsy. -/
def pyTruthy : BarLabels → Bool
  | .bool b => b
  | .str s => s != ""
  | .list l => !l.isEmpty
  | .other t => t

/-- check_label_type: list maps to label type list, bool to value,
str to str, and any other type raises ValueError. -/
def check_label_type : BarLabels → Except String String
  | .list _ => Except.ok "list"
  | .bool _ => Except.ok "value"
  | .str _ => Except.ok "str"
  | .other _ =>
    Except.error "bar_labels can only be of type bool, string, or list. Please check input type."

/-- Python list indexing: raises IndexError when out of range. -/
def pyGetStr (l : List String) (i : ℕ) : Except String String :=
  match l[i]? with
  | some s => Except.ok s
  | none => Except.error "IndexError: list index out of range"

/-- Python int() truncation of a rational toward zero. -/
def truncRat (q : ℚ) : ℤ :=
  Int.sign q.num * (q.num.natAbs / q.den)

/-- Inserts a comma after every third character of a reversed digit
list. -/
def insertCommasRev : List Char → List Char
  | a :: b :: c :: d :: rest => a :: b :: c :: ',' :: insertCommasRev (d :: rest)
  | l => l

/-- Thousands-separated rendering of an integer, as the Python format
specification with a comma grouping option produces. -/
def commaInt (n : ℤ) : String :=
  (if n < 0 then "-" else "")
    ++ String.mk ((insertCommasRev (toString n.natAbs).toList.reverse).reverse)

/-- The label computed for one row inside the add_labels loop, given
the label type returned by check_label_type.  For type list it is the
i-th entry of the given list (IndexError when the list is too short);
for type value it is the truncated delta with thousands separators;
otherwise (type str) it is the fixed string itself.  The two fallback
arms returning an empty string are unreachable: check_label_type
returns type list only for a list and reaches the final branch only
for a str. -/
def label_of (bar_labels : BarLabels) (label_type : String) (row : PlotRow)
    (i : ℕ) : Except String String :=
  if label_type = "list" then
    match bar_labels with
    | .list l => pyGetStr l i
    | _ => Except.ok ""
  else if label_type = "value" then
    Except.ok (commaInt (truncRat row.delta))
  else
    match bar_labels with
    | .str s => Except.ok s
    | _ => Except.ok ""

/-- The enumerate loop of add_labels: for each row, compute the label
(possibly raising), look up the text color, and issue ax.text at
x = i, y = value * 1.02.  The operations issued before an exception
are kept. -/
def labels_loop (bar_labels : BarLabels) (label_type : String)
    (txtcolors : List String) (ax : List AxOp) (i : ℕ) :
    List PlotRow → List AxOp × Option String
  | [] => (ax, none)
  | row :: rest =>
    match label_of bar_labels label_type row i with
    | Except.error e => (ax, some e)
    | Except.ok lab =>
      match pyGetStr txtcolors i with
      | Except.error e => (ax, some e)
      | Except.ok color =>
        labels_loop bar_labels label_type txtcolors
          (ax ++ [AxOp.text i (row.value * (51 / 50)) lab color]) (i + 1) rest

/-- add_labels: computes the text colors, validates the label type
(raising ValueError on an invalid one before any text is issued), then
runs the labelling loop over the rows. -/
def add_labels (ax : List AxOp) (df_plot : List PlotRow)
    (bar_labels : BarLabels) (color_kwargs : ColorKwargs) :
    List AxOp × Option String :=
  let txtcolors := (create_color_list df_plot color_kwargs).2
  match check_label_type bar_labels with
  | Except.error e => (ax, some e)
  | Except.ok label_type => labels_loop bar_labels label_type txtcolors ax 0 df_plot

/-- plot_waterfall: prepares the table (propagating its exceptions),
draws the bars, draws the connector lines, and only then, when
bar_labels is truthy, runs add_labels. -/
def WaterfallChart.plot_waterfall (self : WaterfallChart)
    (bar_labels : BarLabels) (color_kwargs : ColorKwargs) :
    List AxOp × Option String :=
  match self.prep_plot with
  | Except.error e => ([], some e)
  | Except.ok df_plot =>
    let ax : List AxOp := []
    let ax := plot_bars ax df_plot color_kwargs
    let ax := plot_link_lines ax df_plot
    if pyTruthy bar_labels then add_labels ax df_plot bar_labels color_kwargs
    else (ax, none)

/-- The labels of the text operations of a drawing trace, in order. -/
def textLabels (ax : List AxOp) : List String :=
  ax.filterMap (fun op => match op with
    | .text _ _ lab _ => some lab
    | _ => none)

/-! ### Helper lemmas: table construction -/

lemma zip4_length (ls : List String) (vs ds bs : List ℚ) :
    (zip4 ls vs ds bs).length =
      min (min ls.length vs.length) (min ds.length bs.length) := by
  simp [zip4]

lemma zip4_getElem?_eq_some (ls : List String) (vs ds bs : List ℚ) (i : ℕ)
    (r : PlotRow) :
    (zip4 ls vs ds bs)[i]? = some r ↔
      ls[i]? = some r.label ∧ vs[i]? = some r.value ∧ ds[i]? = some r.delta ∧
        bs[i]? = some r.base := by
  obtain ⟨rl, rv, rd, rb⟩ := r
  simp only [zip4, List.getElem?_map, Option.map_eq_some',
    List.getElem?_zip_eq_some, PlotRow.mk.injEq]
  constructor
  · rintro ⟨⟨⟨a, b⟩, ⟨c, d⟩⟩, ⟨⟨h1, h2⟩, h3, h4⟩, rfl, rfl, rfl, rfl⟩
    exact ⟨h1, h2, h3, h4⟩
  · rintro ⟨h1, h2, h3, h4⟩
    exact ⟨⟨⟨rl, rv⟩, ⟨rd, rb⟩⟩, ⟨⟨h1, h2⟩, h3, h4⟩, rfl, rfl, rfl, rfl⟩

lemma stepDeltas_length (vs : List ℚ) : (stepDeltas vs).length = vs.length := by
  cases vs with
  | nil => rfl
  | cons v vs => simp [stepDeltas]

lemma stepDeltas_getElem?_zero (v : ℚ) (vs : List ℚ) :
    (stepDeltas (v :: vs))[0]? = some v := by simp [stepDeltas]

lemma stepDeltas_getElem?_succ (v : ℚ) (vs : List ℚ) (i : ℕ) (a b : ℚ)
    (ha : vs[i]? = some a) (hb : (v :: vs)[i]? = some b) :
    (stepDeltas (v :: vs))[i + 1]? = some (a - b) := by
  simp only [stepDeltas, List.getElem?_cons_succ]
  rw [List.getElem?_zipWith_eq_some]
  exact ⟨a, b, ha, hb, rfl⟩

lemma getElem?_eq_some_getD {α : Type} (l : List α) (d : α) (i : ℕ)
    (h : i < l.length) : l[i]? = some (l.getD i d) := by
  rw [List.getElem?_eq_getElem h, List.getD_eq_getElem l d h]

lemma bases_eq (v lastv : ℚ) (vs : List ℚ) :
    ((0 : ℚ) :: ((v :: vs) ++ [lastv]).dropLast).dropLast ++ [0] =
      0 :: ((v :: vs).dropLast ++ [0]) := by
  have h1 : ((v :: vs) ++ [lastv]).dropLast = v :: vs := List.dropLast_concat
  rw [h1]
  simp

lemma prep_plot_nil (c : WaterfallChart) (hv : c.step_values = []) :
    c.prep_plot = Except.error "IndexError: list index out of range" := by
  unfold WaterfallChart.prep_plot
  rw [hv]

lemma prep_plot_mismatch (c : WaterfallChart) (v : ℚ) (vs : List ℚ)
    (hv : c.step_values = v :: vs)
    (hn : c.step_names.length ≠ vs.length + 1) :
    c.prep_plot =
      Except.error
        "ValueError: columns passed, passed data had a different number of columns" := by
  unfold WaterfallChart.prep_plot
  rw [hv]
  simp [hn]

lemma prep_plot_ok (c : WaterfallChart) (v : ℚ) (vs : List ℚ)
    (hv : c.step_values = v :: vs)
    (hn : c.step_names.length = vs.length + 1) :
    c.prep_plot = Except.ok (zip4 (c.step_names ++ [c.last_step_label])
      ((v :: vs) ++ [vs.getLastD v])
      (stepDeltas (v :: vs) ++ [vs.getLastD v])
      (((0 : ℚ) :: ((v :: vs) ++ [vs.getLastD v]).dropLast).dropLast ++ [0])) := by
  unfold WaterfallChart.prep_plot
  rw [hv]
  have hc : (c.step_names ++ [c.last_step_label]).length = (v :: vs).length + 1 := by
    simp [hn]
  simp [hc]

lemma init_step_values (values : List ℚ) (names : List String)
    (mname lname : String) :
    (WaterfallChart.init values names mname lname).step_values = values := rfl

lemma init_names_length (values : List ℚ) (names : List String)
    (mname lname : String) (h : names ≠ [] → names.length = values.length) :
    (WaterfallChart.init values names mname lname).step_names.length =
      values.length := by
  by_cases hn : names.length > 0
  · have hne : names ≠ [] := by
      intro he
      subst he
      simp at hn
    simp only [WaterfallChart.init]
    rw [if_pos hn]
    exact h hne
  · simp only [WaterfallChart.init]
    rw [if_neg hn]
    simp

lemma prep_plot_length (c : WaterfallChart) (v : ℚ) (vs : List ℚ)
    (df : List PlotRow) (hv : c.step_values = v :: vs)
    (hn : c.step_names.length = vs.length + 1)
    (hdf : c.prep_plot = Except.ok df) :
    df.length = vs.length + 2 := by
  rw [prep_plot_ok c v vs hv hn] at hdf
  injection hdf with h
  subst h
  rw [zip4_length]
  simp [stepDeltas_length, hn]

lemma prep_plot_row_zero (c : WaterfallChart) (v : ℚ) (vs : List ℚ)
    (df : List PlotRow) (hv : c.step_values = v :: vs)
    (hn : c.step_names.length = vs.length + 1)
    (hdf : c.prep_plot = Except.ok df) :
    ∀ r, df[0]? = some r → r.value = v ∧ r.delta = v ∧ r.base = 0 := by
  rw [prep_plot_ok c v vs hv hn] at hdf
  injection hdf with h
  subst h
  intro r hr
  rw [zip4_getElem?_eq_some] at hr
  obtain ⟨hl, hval, hd, hb⟩ := hr
  rw [bases_eq] at hb
  simp [stepDeltas] at hval hd hb
  exact ⟨hval.symm, hd.symm, hb.symm⟩

lemma prep_plot_row_mid (c : WaterfallChart) (v : ℚ) (vs : List ℚ)
    (df : List PlotRow) (hv : c.step_values = v :: vs)
    (hn : c.step_names.length = vs.length + 1)
    (hdf : c.prep_plot = Except.ok df) :
    ∀ j r, j < vs.length → df[j + 1]? = some r →
      r.value = vs.getD j 0 ∧
      r.delta = vs.getD j 0 - (v :: vs).getD j 0 ∧
      r.base = (v :: vs).getD j 0 := by
  rw [prep_plot_ok c v vs hv hn] at hdf
  injection hdf with h
  subst h
  intro j r hj hr
  rw [zip4_getElem?_eq_some] at hr
  obtain ⟨hl, hval, hd, hb⟩ := hr
  constructor
  · rw [List.cons_append, List.getElem?_cons_succ,
      List.getElem?_append_left hj, getElem?_eq_some_getD vs 0 j hj] at hval
    exact (Option.some_inj.mp hval).symm
  constructor
  · rw [List.getElem?_append_left (by simp [stepDeltas_length]; omega),
      stepDeltas_getElem?_succ v vs j (vs.getD j 0) ((v :: vs).getD j 0)
        (getElem?_eq_some_getD vs 0 j hj)
        (getElem?_eq_some_getD (v :: vs) 0 j (by simp; omega))] at hd
    exact (Option.some_inj.mp hd).symm
  · rw [bases_eq, List.getElem?_cons_succ,
      List.getElem?_append_left (by simp [List.length_dropLast]; omega),
      List.dropLast_eq_take, List.getElem?_take] at hb
    rw [if_pos (by simp; omega)] at hb
    rw [getElem?_eq_some_getD (v :: vs) 0 j (by simp; omega)] at hb
    exact (Option.some_inj.mp hb).symm

lemma prep_plot_row_last (c : WaterfallChart) (v : ℚ) (vs : List ℚ)
    (df : List PlotRow) (hv : c.step_values = v :: vs)
    (hn : c.step_names.length = vs.length + 1)
    (hdf : c.prep_plot = Except.ok df) :
    ∀ r, df[vs.length + 1]? = some r →
      r.label = c.last_step_label ∧ r.value = vs.getLastD v ∧
      r.delta = vs.getLastD v ∧ r.base = 0 := by
  rw [prep_plot_ok c v vs hv hn] at hdf
  injection hdf with h
  subst h
  intro r hr
  rw [zip4_getElem?_eq_some] at hr
  obtain ⟨hl, hval, hd, hb⟩ := hr
  rw [List.getElem?_append_right (by omega)] at hl
  rw [hn] at hl
  simp at hl
  rw [List.cons_append, List.getElem?_cons_succ,
    List.getElem?_append_right (by simp)] at hval
  simp at hval
  rw [List.getElem?_append_right (by simp [stepDeltas_length]),
    stepDeltas_length] at hd
  simp at hd
  rw [bases_eq, List.getElem?_cons_succ,
    List.getElem?_append_right (by simp [List.length_dropLast])] at hb
  simp at hb
  simp only [List.getLastD_eq_getLast?]
  exact ⟨hl.symm, hval.symm, hd.symm, hb.symm⟩

/-! ### Helper lemmas: colors -/

lemma getElem?_append_concat_self {α : Type} (xs : List α) (e : α) (i : ℕ)
    (h : i = xs.length) : (xs ++ [e])[i]? = some e := by
  subst h
  simp

lemma create_color_list_zero (df : List PlotRow) (ck : ColorKwargs) :
    (create_color_list df ck).1[0]? = some (get_colors ck).c_bar_start ∧
    (create_color_list df ck).2[0]? = some (get_colors ck).c_text_start := by
  simp [create_color_list]

lemma create_color_list_length (df : List PlotRow) (ck : ColorKwargs)
    (h : 2 ≤ df.length) :
    (create_color_list df ck).1.length = df.length ∧
    (create_color_list df ck).2.length = df.length := by
  refine ⟨?_, ?_⟩ <;> (simp [create_color_list]; omega)

lemma create_color_list_last (df : List PlotRow) (ck : ColorKwargs)
    (h : 2 ≤ df.length) :
    (create_color_list df ck).1[df.length - 1]? = some (get_colors ck).c_bar_end ∧
    (create_color_list df ck).2[df.length - 1]? = some (get_colors ck).c_text_end := by
  refine ⟨?_, ?_⟩ <;>
  · simp only [create_color_list]
    rw [getElem?_append_concat_self]
    simp
    omega

lemma create_color_list_mid (df : List PlotRow) (ck : ColorKwargs) (j : ℕ)
    (r : PlotRow) (hr : df[j + 1]? = some r) (hj : j + 2 < df.length) :
    (create_color_list df ck).1[j + 1]? =
      some (if r.delta < 0 then (get_colors ck).c_bar_neg
            else (get_colors ck).c_bar_pos) ∧
    (create_color_list df ck).2[j + 1]? =
      some (if r.delta < 0 then (get_colors ck).c_text_neg
            else (get_colors ck).c_text_pos) := by
  have h1j : 1 + j = j + 1 := Nat.add_comm 1 j
  have hmid : (((df.map PlotRow.delta).drop 1).dropLast)[j]? = some r.delta := by
    rw [List.dropLast_eq_take, List.getElem?_take]
    rw [if_pos (by simp; omega)]
    rw [List.getElem?_drop, h1j, List.getElem?_map, hr]
    rfl
  refine ⟨?_, ?_⟩ <;>
  · simp only [create_color_list]
    rw [List.getElem?_append_left (by simp; omega), List.singleton_append,
      List.getElem?_cons_succ, List.getElem?_map, hmid]
    rfl

/-! ### Helper lemmas: drawing traces -/

/-- The number of bar drawing calls in a trace. -/
def countBars (ax : List AxOp) : ℕ := (ax.filter AxOp.isBar).length

/-- The number of line drawing calls in a trace. -/
def countLines (ax : List AxOp) : ℕ := (ax.filter AxOp.isLine).length

lemma textLabels_append (ax ax2 : List AxOp) :
    textLabels (ax ++ ax2) = textLabels ax ++ textLabels ax2 := by
  simp [textLabels]

lemma countBars_plot_bars (ax : List AxOp) (df : List PlotRow)
    (ck : ColorKwargs) (h : 2 ≤ df.length) :
    countBars (plot_bars ax df ck) = countBars ax + df.length := by
  simp [countBars, plot_bars, List.filter_append, List.filter_map,
    AxOp.isBar, Function.comp_def, List.filter_true, List.length_zip,
    (create_color_list_length df ck h).1]

lemma countLines_plot_bars (ax : List AxOp) (df : List PlotRow)
    (ck : ColorKwargs) :
    countLines (plot_bars ax df ck) = countLines ax := by
  simp [countLines, plot_bars, List.filter_append, List.filter_map,
    AxOp.isLine, Function.comp_def, List.filter_false]

lemma textLabels_plot_bars (ax : List AxOp) (df : List PlotRow)
    (ck : ColorKwargs) :
    textLabels (plot_bars ax df ck) = textLabels ax := by
  simp [textLabels, plot_bars, List.filterMap_append, List.filterMap_map,
    Function.comp_def, List.filterMap_eq_nil_iff]

lemma countBars_plot_link_lines (ax : List AxOp) (df : List PlotRow) :
    countBars (plot_link_lines ax df) = countBars ax := by
  simp [countBars, plot_link_lines, List.filter_append, AxOp.isBar]

lemma countLines_plot_link_lines (ax : List AxOp) (df : List PlotRow) :
    countLines (plot_link_lines ax df) = countLines ax + 1 := by
  simp [countLines, plot_link_lines, List.filter_append, AxOp.isLine]

lemma textLabels_plot_link_lines (ax : List AxOp) (df : List PlotRow) :
    textLabels (plot_link_lines ax df) = textLabels ax := by
  simp [textLabels, plot_link_lines, List.filterMap_append]

/-! ### Helper lemmas: labelling loop -/

lemma label_of_value_eq (b : Bool) (row : PlotRow) (i : ℕ) :
    label_of (.bool b) "value" row i =
      Except.ok (commaInt (truncRat row.delta)) := by
  simp [label_of]

lemma label_of_str_eq (s : String) (row : PlotRow) (i : ℕ) :
    label_of (.str s) "str" row i = Except.ok s := by
  simp [label_of]

lemma label_of_list_eq (l : List String) (row : PlotRow) (i : ℕ) :
    label_of (.list l) "list" row i = pyGetStr l i := by
  simp [label_of]

lemma labels_loop_value (b : Bool) (tcs : List String) :
    ∀ (rows : List PlotRow) (ax : List AxOp) (i : ℕ),
      i + rows.length ≤ tcs.length →
      (labels_loop (.bool b) "value" tcs ax i rows).2 = none ∧
      textLabels (labels_loop (.bool b) "value" tcs ax i rows).1 =
        textLabels ax ++ rows.map (fun r => commaInt (truncRat r.delta))
  | [], ax, i, h => by simp [labels_loop]
  | row :: rest, ax, i, h => by
    have hi : i < tcs.length := by simp at h; omega
    have hs : tcs[i]? = some (tcs.getD i "") := getElem?_eq_some_getD tcs "" i hi
    have ih := labels_loop_value b tcs rest
      (ax ++ [AxOp.text i (row.value * (51 / 50)) (commaInt (truncRat row.delta))
        (tcs.getD i "")]) (i + 1) (by simp at h ⊢; omega)
    simp only [labels_loop, label_of_value_eq, pyGetStr, hs]
    refine ⟨ih.1, ?_⟩
    rw [ih.2, textLabels_append]
    simp [textLabels]

lemma labels_loop_str (s : String) (tcs : List String) :
    ∀ (rows : List PlotRow) (ax : List AxOp) (i : ℕ),
      i + rows.length ≤ tcs.length →
      (labels_loop (.str s) "str" tcs ax i rows).2 = none ∧
      textLabels (labels_loop (.str s) "str" tcs ax i rows).1 =
        textLabels ax ++ List.replicate rows.length s
  | [], ax, i, h => by simp [labels_loop]
  | row :: rest, ax, i, h => by
    have hi : i < tcs.length := by simp at h; omega
    have hs : tcs[i]? = some (tcs.getD i "") := getElem?_eq_some_getD tcs "" i hi
    have ih := labels_loop_str s tcs rest
      (ax ++ [AxOp.text i (row.value * (51 / 50)) s (tcs.getD i "")]) (i + 1)
      (by simp at h ⊢; omega)
    simp only [labels_loop, label_of_str_eq, pyGetStr, hs]
    refine ⟨ih.1, ?_⟩
    rw [ih.2, textLabels_append]
    simp [textLabels, List.replicate_succ]

lemma labels_loop_list (l : List String) (tcs : List String) :
    ∀ (rows : List PlotRow) (ax : List AxOp) (i : ℕ),
      i + rows.length ≤ tcs.length → i ≤ l.length → l.length < i + rows.length →
      (labels_loop (.list l) "list" tcs ax i rows).2 =
        some "IndexError: list index out of range" ∧
      textLabels (labels_loop (.list l) "list" tcs ax i rows).1 =
        textLabels ax ++ l.drop i
  | [], ax, i, htc, hil, hlen => False.elim (by simp at hlen; omega)
  | row :: rest, ax, i, htc, hil, hlen => by
    rcases Nat.lt_or_ge i l.length with hi | hi
    · have hs : l[i]? = some (l.getD i "") := getElem?_eq_some_getD l "" i hi
      have hc : tcs[i]? = some (tcs.getD i "") :=
        getElem?_eq_some_getD tcs "" i (by simp at htc; omega)
      have ih := labels_loop_list l tcs rest
        (ax ++ [AxOp.text i (row.value * (51 / 50)) (l.getD i "") (tcs.getD i "")])
        (i + 1) (by simp at htc ⊢; omega) (by omega)
        (by simp at hlen ⊢; omega)
      simp only [labels_loop, label_of_list_eq, pyGetStr, hs, hc]
      refine ⟨ih.1, ?_⟩
      rw [ih.2, textLabels_append]
      have hdrop : l.drop i = l.getD i "" :: l.drop (i + 1) := by
        rw [List.getD_eq_getElem l "" hi]
        exact List.drop_eq_getElem_cons hi
      rw [hdrop]
      simp [textLabels]
    · have hs : l[i]? = none := by
        rw [List.getElem?_eq_none_iff]
        omega
      rw [List.drop_eq_nil_of_le (by omega)]
      simp [labels_loop, label_of_list_eq, pyGetStr, hs]

/-! ### Helper lemmas: plot_waterfall assembly -/

lemma truncRat_intCast (n : ℤ) : truncRat ((n : ℚ)) = n := by
  simp [truncRat, Rat.intCast_num, Rat.intCast_den]
  exact Int.sign_mul_abs n

lemma plot_waterfall_unfold (c : WaterfallChart) (df : List PlotRow)
    (bl : BarLabels) (ck : ColorKwargs) (hdf : c.prep_plot = Except.ok df) :
    c.plot_waterfall bl ck =
      if pyTruthy bl then
        add_labels (plot_link_lines (plot_bars [] df ck) df) df bl ck
      else (plot_link_lines (plot_bars [] df ck) df, none) := by
  unfold WaterfallChart.plot_waterfall
  rw [hdf]

lemma add_labels_other_eq (ax : List AxOp) (df : List PlotRow) (t : Bool)
    (ck : ColorKwargs) :
    add_labels ax df (.other t) ck =
      (ax,
       some "bar_labels can only be of type bool, string, or list. Please check input type.") := by
  simp [add_labels, check_label_type]

lemma add_labels_bool_eq (ax : List AxOp) (df : List PlotRow) (b : Bool)
    (ck : ColorKwargs) :
    add_labels ax df (.bool b) ck =
      labels_loop (.bool b) "value" (create_color_list df ck).2 ax 0 df := by
  simp [add_labels, check_label_type]

lemma add_labels_str_eq (ax : List AxOp) (df : List PlotRow) (s : String)
    (ck : ColorKwargs) :
    add_labels ax df (.str s) ck =
      labels_loop (.str s) "str" (create_color_list df ck).2 ax 0 df := by
  simp [add_labels, check_label_type]

lemma add_labels_list_eq (ax : List AxOp) (df : List PlotRow) (l : List String)
    (ck : ColorKwargs) :
    add_labels ax df (.list l) ck =
      labels_loop (.list l) "list" (create_color_list df ck).2 ax 0 df := by
  simp [add_labels, check_label_type]

lemma textLabels_base (df : List PlotRow) (ck : ColorKwargs) :
    textLabels (plot_link_lines (plot_bars [] df ck) df) = [] := by
  rw [textLabels_plot_link_lines, textLabels_plot_bars]
  rfl

lemma countBars_base (df : List PlotRow) (ck : ColorKwargs) (h : 2 ≤ df.length) :
    countBars (plot_link_lines (plot_bars [] df ck) df) = df.length := by
  rw [countBars_plot_link_lines, countBars_plot_bars [] df ck h]
  simp [countBars]

lemma countLines_base (df : List PlotRow) (ck : ColorKwargs) :
    countLines (plot_link_lines (plot_bars [] df ck) df) = 1 := by
  rw [countLines_plot_link_lines, countLines_plot_bars]
  rfl

/-! ### Claim theorems -/

/-- C1: For every non-empty list of step values (with the optional step
names either empty or of matching length), prep_plot produces a table
in which, for every index i with 1 <= i <= n-1, delta at i equals
values at i minus values at i-1 and base at i equals values at i-1,
while the first row has delta equal to values at 0 and base 0. -/
theorem claim_C1 (values : List ℚ) (names : List String) (mname lname : String)
    (hv : values ≠ []) (hn : names ≠ [] → names.length = values.length) :
    ∃ df, (WaterfallChart.init values names mname lname).prep_plot = Except.ok df ∧
      df.length = values.length + 1 ∧
      (∀ r, df[0]? = some r → r.delta = values.getD 0 0 ∧ r.base = 0) ∧
      (∀ i r, 1 ≤ i → i ≤ values.length - 1 → df[i]? = some r →
        r.delta = values.getD i 0 - values.getD (i - 1) 0 ∧
        r.base = values.getD (i - 1) 0) := by
  obtain ⟨v, vs, rfl⟩ := List.exists_cons_of_ne_nil hv
  have hv' : (WaterfallChart.init (v :: vs) names mname lname).step_values = v :: vs := rfl
  have hn' : (WaterfallChart.init (v :: vs) names mname lname).step_names.length =
      vs.length + 1 := by
    have h := init_names_length (v :: vs) names mname lname hn
    simpa using h
  have hok := prep_plot_ok _ v vs hv' hn'
  refine ⟨_, hok, ?_, ?_, ?_⟩
  · have h := prep_plot_length _ v vs _ hv' hn' hok
    simpa using h
  · intro r hr
    have h0 := prep_plot_row_zero _ v vs _ hv' hn' hok r hr
    exact ⟨by simpa using h0.2.1, h0.2.2⟩
  · intro i r h1 h2 hr
    obtain ⟨j, rfl⟩ : ∃ j, i = j + 1 := ⟨i - 1, by omega⟩
    have hj : j < vs.length := by simp at h2; omega
    have hm := prep_plot_row_mid _ v vs _ hv' hn' hok j r hj hr
    constructor
    · rw [hm.2.1]
      simp
    · rw [hm.2.2]
      simp

/-- Witness for C1 at the concrete input of the specification example. -/
theorem claim_C1_witness :
    ∃ df, (WaterfallChart.init [100, 120, 90, 130] [] "" "").prep_plot = Except.ok df ∧
      df.length = ([100, 120, 90, 130] : List ℚ).length + 1 ∧
      (∀ r, df[0]? = some r →
        r.delta = ([100, 120, 90, 130] : List ℚ).getD 0 0 ∧ r.base = 0) ∧
      (∀ i r, 1 ≤ i → i ≤ ([100, 120, 90, 130] : List ℚ).length - 1 →
        df[i]? = some r →
        r.delta = ([100, 120, 90, 130] : List ℚ).getD i 0 -
          ([100, 120, 90, 130] : List ℚ).getD (i - 1) 0 ∧
        r.base = ([100, 120, 90, 130] : List ℚ).getD (i - 1) 0) :=
  claim_C1 [100, 120, 90, 130] [] "" "" (by simp) (by simp)

/-- C2: For every non-empty list of step values, prep_plot returns a
table with exactly len(values) + 1 rows, and the synthetic trailing
row has value equal to the last input value, delta equal to it as
well, base 0, and the final-value label of the chart. -/
theorem claim_C2 (values : List ℚ) (names : List String) (mname lname : String)
    (hv : values ≠ []) (hn : names ≠ [] → names.length = values.length) :
    ∃ df, (WaterfallChart.init values names mname lname).prep_plot = Except.ok df ∧
      df.length = values.length + 1 ∧
      ∃ r, df[values.length]? = some r ∧
        r.value = values.getLastD 0 ∧ r.delta = values.getLastD 0 ∧ r.base = 0 ∧
        r.label = (WaterfallChart.init values names mname lname).last_step_label := by
  obtain ⟨v, vs, rfl⟩ := List.exists_cons_of_ne_nil hv
  have hv' : (WaterfallChart.init (v :: vs) names mname lname).step_values = v :: vs := rfl
  have hn' : (WaterfallChart.init (v :: vs) names mname lname).step_names.length =
      vs.length + 1 := by
    have h := init_names_length (v :: vs) names mname lname hn
    simpa using h
  have hok := prep_plot_ok _ v vs hv' hn'
  have hlen := prep_plot_length _ v vs _ hv' hn' hok
  refine ⟨_, hok, by simpa using hlen, ?_⟩
  have hlt : vs.length + 1 <
      (zip4 ((WaterfallChart.init (v :: vs) names mname lname).step_names ++
          [(WaterfallChart.init (v :: vs) names mname lname).last_step_label])
        ((v :: vs) ++ [vs.getLastD v]) (stepDeltas (v :: vs) ++ [vs.getLastD v])
        (((0 : ℚ) :: ((v :: vs) ++ [vs.getLastD v]).dropLast).dropLast ++ [0])).length := by
    rw [hlen]
    omega
  refine ⟨_, List.getElem?_eq_getElem hlt, ?_⟩
  have hl := prep_plot_row_last _ v vs _ hv' hn' hok _ (List.getElem?_eq_getElem hlt)
  simp only [List.length_cons, List.getLastD_cons]
  exact ⟨hl.2.1, hl.2.2.1, hl.2.2.2, hl.1⟩

/-- Witness for C2 at a concrete two-step input. -/
theorem claim_C2_witness :
    ∃ df, (WaterfallChart.init [50, 80] [] "" "Net").prep_plot = Except.ok df ∧
      df.length = ([50, 80] : List ℚ).length + 1 ∧
      ∃ r, df[([50, 80] : List ℚ).length]? = some r ∧
        r.value = ([50, 80] : List ℚ).getLastD 0 ∧
        r.delta = ([50, 80] : List ℚ).getLastD 0 ∧ r.base = 0 ∧
        r.label = (WaterfallChart.init [50, 80] [] "" "Net").last_step_label :=
  claim_C2 [50, 80] [] "" "Net" (by simp) (by simp)

/-- C7: For every non-empty input, every row of the table except the
synthetic trailing one satisfies base + delta = value, while the
trailing row has base 0 and delta equal to its value. -/
theorem claim_C7 (values : List ℚ) (names : List String) (mname lname : String)
    (hv : values ≠ []) (hn : names ≠ [] → names.length = values.length) :
    ∃ df, (WaterfallChart.init values names mname lname).prep_plot = Except.ok df ∧
      (∀ i r, i < values.length → df[i]? = some r → r.base + r.delta = r.value) ∧
      (∀ r, df[values.length]? = some r → r.base = 0 ∧ r.delta = r.value) := by
  obtain ⟨v, vs, rfl⟩ := List.exists_cons_of_ne_nil hv
  have hv' : (WaterfallChart.init (v :: vs) names mname lname).step_values = v :: vs := rfl
  have hn' : (WaterfallChart.init (v :: vs) names mname lname).step_names.length =
      vs.length + 1 := by
    have h := init_names_length (v :: vs) names mname lname hn
    simpa using h
  have hok := prep_plot_ok _ v vs hv' hn'
  refine ⟨_, hok, ?_, ?_⟩
  · intro i r hi hr
    cases i with
    | zero =>
      have h0 := prep_plot_row_zero _ v vs _ hv' hn' hok r hr
      rw [h0.1, h0.2.1, h0.2.2]
      ring
    | succ j =>
      have hj : j < vs.length := by simp at hi; omega
      have hm := prep_plot_row_mid _ v vs _ hv' hn' hok j r hj hr
      rw [hm.1, hm.2.1, hm.2.2]
      ring
  · intro r hr
    have hl := prep_plot_row_last _ v vs _ hv' hn' hok r (by simpa using hr)
    exact ⟨hl.2.2.2, by rw [hl.2.2.1, hl.2.1]⟩

/-- Witness for C7 at the concrete input of the specification example. -/
theorem claim_C7_witness :
    ∃ df, (WaterfallChart.init [100, 120, 90, 130] ["a", "b", "c", "d"] "m" "end").prep_plot =
        Except.ok df ∧
      (∀ i r, i < ([100, 120, 90, 130] : List ℚ).length → df[i]? = some r →
        r.base + r.delta = r.value) ∧
      (∀ r, df[([100, 120, 90, 130] : List ℚ).length]? = some r →
        r.base = 0 ∧ r.delta = r.value) :=
  claim_C7 [100, 120, 90, 130] ["a", "b", "c", "d"] "m" "end" (by simp) (by simp)

/-- C3: If step_names is non-empty and its length differs from the
length of step_values, building the plotting table fails with an
error rather than producing a misaligned or truncated table; with
non-empty values the error is the column-count ValueError raised by
the DataFrame constructor (with empty values the IndexError on
step_values[-1] fires first). -/
theorem claim_C3 (values : List ℚ) (names : List String) (mname lname : String)
    (hne : names ≠ []) (hmm : names.length ≠ values.length) :
    ∃ e, (WaterfallChart.init values names mname lname).prep_plot = Except.error e ∧
      (values ≠ [] →
        e = "ValueError: columns passed, passed data had a different number of columns") := by
  cases values with
  | nil =>
    exact ⟨"IndexError: list index out of range", prep_plot_nil _ rfl, by simp⟩
  | cons v vs =>
    have hpos : 0 < names.length := List.length_pos.mpr hne
    have hnames : (WaterfallChart.init (v :: vs) names mname lname).step_names = names := by
      simp only [WaterfallChart.init]
      rw [if_pos hpos]
    have hlen : (WaterfallChart.init (v :: vs) names mname lname).step_names.length ≠
        vs.length + 1 := by
      rw [hnames]
      simpa using hmm
    exact ⟨_, prep_plot_mismatch _ v vs rfl hlen, fun _ => rfl⟩

/-- Witness for C3 at a concrete mismatched input. -/
theorem claim_C3_witness :
    ∃ e, (WaterfallChart.init [1, 2] ["a"] "" "").prep_plot = Except.error e ∧
      (([1, 2] : List ℚ) ≠ [] →
        e = "ValueError: columns passed, passed data had a different number of columns") :=
  claim_C3 [1, 2] ["a"] "" "" (by simp) (by simp)

/-- C9 (counterexample): with no override, the resolved default bar
color for the start role is not the literal string cyan. -/
theorem claim_C9_counterexample :
    (get_colors ColorKwargs.empty).c_bar_start ≠ "cyan" := by decide

/-- C9 (amended): when the color configuration does not override it,
the default bar color resolved for the start role is the string c,
the matplotlib shorthand for cyan. -/
theorem claim_C9 (ck : ColorKwargs) (h : ck.c_bar_start = none) :
    (get_colors ck).c_bar_start = "c" := by
  simp [get_colors, h]

/-- Witness for C9 at the empty color configuration. -/
theorem claim_C9_witness : (get_colors ColorKwargs.empty).c_bar_start = "c" :=
  claim_C9 ColorKwargs.empty rfl

/-- C4: For every table produced by prep_plot, the color classification
is purely positional and sign-based: position 0 gets the start colors
regardless of the sign of its delta, the last position gets the end
colors, and every interior position gets the negative colors when its
delta is negative and the positive colors otherwise; with the default
palette a negative interior delta gets bar color salmon and text color
maroon. -/
theorem claim_C4 (values : List ℚ) (names : List String) (mname lname : String)
    (ck : ColorKwargs) (df : List PlotRow)
    (hv : values ≠ []) (hn : names ≠ [] → names.length = values.length)
    (hdf : (WaterfallChart.init values names mname lname).prep_plot = Except.ok df) :
    (create_color_list df ck).1[0]? = some (get_colors ck).c_bar_start ∧
    (create_color_list df ck).2[0]? = some (get_colors ck).c_text_start ∧
    (create_color_list df ck).1[df.length - 1]? = some (get_colors ck).c_bar_end ∧
    (create_color_list df ck).2[df.length - 1]? = some (get_colors ck).c_text_end ∧
    (∀ i r, 1 ≤ i → i < df.length - 1 → df[i]? = some r →
      (create_color_list df ck).1[i]? =
        some (if r.delta < 0 then (get_colors ck).c_bar_neg
              else (get_colors ck).c_bar_pos) ∧
      (create_color_list df ck).2[i]? =
        some (if r.delta < 0 then (get_colors ck).c_text_neg
              else (get_colors ck).c_text_pos)) ∧
    (∀ i r, 1 ≤ i → i < df.length - 1 → df[i]? = some r → r.delta < 0 →
      (create_color_list df ColorKwargs.empty).1[i]? = some "salmon" ∧
      (create_color_list df ColorKwargs.empty).2[i]? = some "maroon") := by
  obtain ⟨v, vs, rfl⟩ := List.exists_cons_of_ne_nil hv
  have hv' : (WaterfallChart.init (v :: vs) names mname lname).step_values = v :: vs := rfl
  have hn' : (WaterfallChart.init (v :: vs) names mname lname).step_names.length =
      vs.length + 1 := by
    have h := init_names_length (v :: vs) names mname lname hn
    simpa using h
  have hlen := prep_plot_length _ v vs df hv' hn' hdf
  have h2 : 2 ≤ df.length := by omega
  refine ⟨(create_color_list_zero df ck).1, (create_color_list_zero df ck).2,
    (create_color_list_last df ck h2).1, (create_color_list_last df ck h2).2, ?_, ?_⟩
  · intro i r h1i hi hr
    obtain ⟨j, rfl⟩ : ∃ j, i = j + 1 := ⟨i - 1, by omega⟩
    exact create_color_list_mid df ck j r hr (by omega)
  · intro i r h1i hi hr hneg
    obtain ⟨j, rfl⟩ : ∃ j, i = j + 1 := ⟨i - 1, by omega⟩
    have hm := create_color_list_mid df ColorKwargs.empty j r hr (by omega)
    rw [hm.1, hm.2, if_pos hneg, if_pos hneg]
    exact ⟨rfl, rfl⟩

/-- The plotting table of the four-step specification example, written
as prep_plot builds it. -/
def exampleTable : List PlotRow :=
  zip4 (["s1", "s2", "s3", "s4"] ++ ["Final Value"])
    (([100, 120, 90, 130] : List ℚ) ++ [130])
    (stepDeltas [100, 120, 90, 130] ++ [130])
    (((0 : ℚ) :: (([100, 120, 90, 130] : List ℚ) ++ [130]).dropLast).dropLast ++ [0])

/-- Witness for C4 at the four-step specification example. -/
theorem claim_C4_witness :
    (create_color_list exampleTable ColorKwargs.empty).1[0]? =
      some (get_colors ColorKwargs.empty).c_bar_start ∧
    (create_color_list exampleTable ColorKwargs.empty).2[0]? =
      some (get_colors ColorKwargs.empty).c_text_start ∧
    (create_color_list exampleTable ColorKwargs.empty).1[exampleTable.length - 1]? =
      some (get_colors ColorKwargs.empty).c_bar_end ∧
    (create_color_list exampleTable ColorKwargs.empty).2[exampleTable.length - 1]? =
      some (get_colors ColorKwargs.empty).c_text_end ∧
    (∀ i r, 1 ≤ i → i < exampleTable.length - 1 → exampleTable[i]? = some r →
      (create_color_list exampleTable ColorKwargs.empty).1[i]? =
        some (if r.delta < 0 then (get_colors ColorKwargs.empty).c_bar_neg
              else (get_colors ColorKwargs.empty).c_bar_pos) ∧
      (create_color_list exampleTable ColorKwargs.empty).2[i]? =
        some (if r.delta < 0 then (get_colors ColorKwargs.empty).c_text_neg
              else (get_colors ColorKwargs.empty).c_text_pos)) ∧
    (∀ i r, 1 ≤ i → i < exampleTable.length - 1 → exampleTable[i]? = some r →
      r.delta < 0 →
      (create_color_list exampleTable ColorKwargs.empty).1[i]? = some "salmon" ∧
      (create_color_list exampleTable ColorKwargs.empty).2[i]? = some "maroon") :=
  claim_C4 [100, 120, 90, 130] ["s1", "s2", "s3", "s4"] "" "" ColorKwargs.empty
    exampleTable (by simp) (by simp)
    (by rw [prep_plot_ok _ 100 [120, 90, 130] rfl (by simp [WaterfallChart.init])]; rfl)

lemma plot_waterfall_truthy (c : WaterfallChart) (df : List PlotRow)
    (bl : BarLabels) (ck : ColorKwargs) (hdf : c.prep_plot = Except.ok df)
    (ht : pyTruthy bl = true) :
    c.plot_waterfall bl ck =
      add_labels (plot_link_lines (plot_bars [] df ck) df) df bl ck := by
  rw [plot_waterfall_unfold c df bl ck hdf]
  simp [ht]

lemma plot_waterfall_falsy (c : WaterfallChart) (df : List PlotRow)
    (bl : BarLabels) (ck : ColorKwargs) (hdf : c.prep_plot = Except.ok df)
    (ht : pyTruthy bl = false) :
    c.plot_waterfall bl ck =
      (plot_link_lines (plot_bars [] df ck) df, none) := by
  rw [plot_waterfall_unfold c df bl ck hdf]
  simp [ht]

/-- C5 (counterexample to the claim as stated): calling plot_waterfall
on the chart for values 1, 2 with a truthy bar_labels value that is
neither bool nor string nor list does raise the ValueError, but only
after three bars and the connector line have already been drawn on the
axes, so the draw is partial; and with a falsy such value no error is
raised at all. -/
theorem claim_C5_counterexample :
    ((WaterfallChart.init [1, 2] [] "" "").plot_waterfall (.other true)
        ColorKwargs.empty).2 =
      some "bar_labels can only be of type bool, string, or list. Please check input type." ∧
    countBars ((WaterfallChart.init [1, 2] [] "" "").plot_waterfall (.other true)
        ColorKwargs.empty).1 = 3 ∧
    countLines ((WaterfallChart.init [1, 2] [] "" "").plot_waterfall (.other true)
        ColorKwargs.empty).1 = 1 ∧
    ((WaterfallChart.init [1, 2] [] "" "").plot_waterfall (.other false)
        ColorKwargs.empty).2 = none := by
  have hn' : (WaterfallChart.init [1, 2] [] "" "").step_names.length =
      [(2 : ℚ)].length + 1 := by
    simp [WaterfallChart.init]
  obtain ⟨df, hdf⟩ : ∃ df,
      (WaterfallChart.init [1, 2] [] "" "").prep_plot = Except.ok df :=
    ⟨_, prep_plot_ok _ 1 [2] rfl hn'⟩
  have hlen := prep_plot_length _ 1 [2] df rfl hn' hdf
  have h2 : 2 ≤ df.length := by simp at hlen; omega
  rw [plot_waterfall_truthy _ df (.other true) ColorKwargs.empty hdf rfl,
    plot_waterfall_falsy _ df (.other false) ColorKwargs.empty hdf rfl,
    add_labels_other_eq]
  refine ⟨rfl, ?_, ?_, rfl⟩
  · show countBars (plot_link_lines (plot_bars [] df ColorKwargs.empty) df) = 3
    rw [countBars_base df ColorKwargs.empty h2]
    simpa using hlen
  · show countLines (plot_link_lines (plot_bars [] df ColorKwargs.empty) df) = 1
    exact countLines_base df ColorKwargs.empty

/-- C5 (amended): if bar_labels is truthy and not a bool, a string or
a list, plot_waterfall fails with the ValueError naming the allowed
modes, raised before any label is drawn but only after the bars and
the connector line have been drawn (a partial draw); if such a value
is falsy, no error is raised and labelling is silently skipped. -/
theorem claim_C5 (values : List ℚ) (names : List String) (mname lname : String)
    (ck : ColorKwargs)
    (hv : values ≠ []) (hn : names ≠ [] → names.length = values.length) :
    ((WaterfallChart.init values names mname lname).plot_waterfall (.other true) ck).2 =
      some "bar_labels can only be of type bool, string, or list. Please check input type." ∧
    textLabels ((WaterfallChart.init values names mname lname).plot_waterfall
        (.other true) ck).1 = [] ∧
    countBars ((WaterfallChart.init values names mname lname).plot_waterfall
        (.other true) ck).1 = values.length + 1 ∧
    countLines ((WaterfallChart.init values names mname lname).plot_waterfall
        (.other true) ck).1 = 1 ∧
    ((WaterfallChart.init values names mname lname).plot_waterfall
        (.other false) ck).2 = none := by
  obtain ⟨v, vs, rfl⟩ := List.exists_cons_of_ne_nil hv
  have hv' : (WaterfallChart.init (v :: vs) names mname lname).step_values = v :: vs := rfl
  have hn' : (WaterfallChart.init (v :: vs) names mname lname).step_names.length =
      vs.length + 1 := by
    have h := init_names_length (v :: vs) names mname lname hn
    simpa using h
  obtain ⟨df, hdf⟩ : ∃ df,
      (WaterfallChart.init (v :: vs) names mname lname).prep_plot = Except.ok df :=
    ⟨_, prep_plot_ok _ v vs hv' hn'⟩
  have hlen := prep_plot_length _ v vs df hv' hn' hdf
  have h2 : 2 ≤ df.length := by omega
  rw [plot_waterfall_truthy _ df (.other true) ck hdf rfl,
    plot_waterfall_falsy _ df (.other false) ck hdf rfl,
    add_labels_other_eq]
  refine ⟨rfl, ?_, ?_, ?_, rfl⟩
  · show textLabels (plot_link_lines (plot_bars [] df ck) df) = []
    exact textLabels_base df ck
  · show countBars (plot_link_lines (plot_bars [] df ck) df) = (v :: vs).length + 1
    rw [countBars_base df ck h2, hlen]
    simp
  · show countLines (plot_link_lines (plot_bars [] df ck) df) = 1
    exact countLines_base df ck

/-- Witness for the amended C5 at a concrete three-step chart. -/
theorem claim_C5_witness :
    ((WaterfallChart.init [5, 3, 9] [] "" "").plot_waterfall (.other true)
        ColorKwargs.empty).2 =
      some "bar_labels can only be of type bool, string, or list. Please check input type." ∧
    textLabels ((WaterfallChart.init [5, 3, 9] [] "" "").plot_waterfall
        (.other true) ColorKwargs.empty).1 = [] ∧
    countBars ((WaterfallChart.init [5, 3, 9] [] "" "").plot_waterfall
        (.other true) ColorKwargs.empty).1 = ([5, 3, 9] : List ℚ).length + 1 ∧
    countLines ((WaterfallChart.init [5, 3, 9] [] "" "").plot_waterfall
        (.other true) ColorKwargs.empty).1 = 1 ∧
    ((WaterfallChart.init [5, 3, 9] [] "" "").plot_waterfall
        (.other false) ColorKwargs.empty).2 = none :=
  claim_C5 [5, 3, 9] [] "" "" ColorKwargs.empty (by simp) (by simp)

/-- C6 (counterexample to the claim as stated): on the chart for
values 1, 2 (table of three rows), labelling with the two-element
explicit list a, b does raise the IndexError, but the labels a and b
have already been drawn when it is raised, so partial output is
produced. -/
theorem claim_C6_counterexample :
    ((WaterfallChart.init [1, 2] [] "" "").plot_waterfall (.list ["a", "b"])
        ColorKwargs.empty).2 = some "IndexError: list index out of range" ∧
    textLabels ((WaterfallChart.init [1, 2] [] "" "").plot_waterfall
        (.list ["a", "b"]) ColorKwargs.empty).1 = ["a", "b"] := by
  have hn' : (WaterfallChart.init [1, 2] [] "" "").step_names.length =
      [(2 : ℚ)].length + 1 := by
    simp [WaterfallChart.init]
  obtain ⟨df, hdf⟩ : ∃ df,
      (WaterfallChart.init [1, 2] [] "" "").prep_plot = Except.ok df :=
    ⟨_, prep_plot_ok _ 1 [2] rfl hn'⟩
  have hlen := prep_plot_length _ 1 [2] df rfl hn' hdf
  have h2 : 2 ≤ df.length := by simp at hlen; omega
  rw [plot_waterfall_truthy _ df (.list ["a", "b"]) ColorKwargs.empty hdf rfl,
    add_labels_list_eq]
  have hloop := labels_loop_list ["a", "b"] (create_color_list df ColorKwargs.empty).2
    df (plot_link_lines (plot_bars [] df ColorKwargs.empty) df) 0
    (by rw [(create_color_list_length df ColorKwargs.empty h2).2]; omega)
    (by simp) (by simp at hlen ⊢; omega)
  refine ⟨hloop.1, ?_⟩
  rw [hloop.2, textLabels_base]
  simp

/-- C6 (amended): when the label mode is a non-empty explicit list
shorter than the table, labelling fails with the IndexError, but only
after the labels for the first len(list) bars have been drawn: the
text operations issued are exactly the entries of the list. -/
theorem claim_C6 (values : List ℚ) (names : List String) (mname lname : String)
    (ck : ColorKwargs) (l : List String)
    (hv : values ≠ []) (hn : names ≠ [] → names.length = values.length)
    (hl : l ≠ []) (hshort : l.length ≤ values.length) :
    ((WaterfallChart.init values names mname lname).plot_waterfall (.list l) ck).2 =
      some "IndexError: list index out of range" ∧
    textLabels ((WaterfallChart.init values names mname lname).plot_waterfall
        (.list l) ck).1 = l := by
  obtain ⟨v, vs, rfl⟩ := List.exists_cons_of_ne_nil hv
  have hv' : (WaterfallChart.init (v :: vs) names mname lname).step_values = v :: vs := rfl
  have hn' : (WaterfallChart.init (v :: vs) names mname lname).step_names.length =
      vs.length + 1 := by
    have h := init_names_length (v :: vs) names mname lname hn
    simpa using h
  obtain ⟨df, hdf⟩ : ∃ df,
      (WaterfallChart.init (v :: vs) names mname lname).prep_plot = Except.ok df :=
    ⟨_, prep_plot_ok _ v vs hv' hn'⟩
  have hlen := prep_plot_length _ v vs df hv' hn' hdf
  have h2 : 2 ≤ df.length := by omega
  have ht : pyTruthy (.list l) = true := by simp [pyTruthy, hl]
  rw [plot_waterfall_truthy _ df (.list l) ck hdf ht, add_labels_list_eq]
  have hshort' : l.length < df.length := by simp at hshort; omega
  have hloop := labels_loop_list l (create_color_list df ck).2
    df (plot_link_lines (plot_bars [] df ck) df) 0
    (by rw [(create_color_list_length df ck h2).2]; omega)
    (by simp) (by omega)
  refine ⟨hloop.1, ?_⟩
  rw [hloop.2, textLabels_base]
  simp

/-- Witness for the amended C6 at a concrete chart and a one-element
list against a three-row table. -/
theorem claim_C6_witness :
    ((WaterfallChart.init [1, 2] [] "" "").plot_waterfall (.list ["x"])
        ColorKwargs.empty).2 = some "IndexError: list index out of range" ∧
    textLabels ((WaterfallChart.init [1, 2] [] "" "").plot_waterfall
        (.list ["x"]) ColorKwargs.empty).1 = ["x"] :=
  claim_C6 [1, 2] [] "" "" ColorKwargs.empty ["x"] (by simp) (by simp)
    (by simp) (by simp)

/-- C8: When the label mode is the boolean true, plot_waterfall
labels every row with the thousands-separated formatting of the
integer truncation of that row delta; in particular a delta of -30 is
rendered as -30 and a delta of -3000 as -3,000 (with a comma). -/
theorem claim_C8 (values : List ℚ) (names : List String) (mname lname : String)
    (ck : ColorKwargs)
    (hv : values ≠ []) (hn : names ≠ [] → names.length = values.length) :
    ∃ df, (WaterfallChart.init values names mname lname).prep_plot = Except.ok df ∧
      ((WaterfallChart.init values names mname lname).plot_waterfall
          (.bool true) ck).2 = none ∧
      textLabels ((WaterfallChart.init values names mname lname).plot_waterfall
          (.bool true) ck).1 = df.map (fun r => commaInt (truncRat r.delta)) ∧
      commaInt (truncRat (-30 : ℚ)) = "-30" ∧
      commaInt (truncRat (-3000 : ℚ)) = "-3,000" := by
  obtain ⟨v, vs, rfl⟩ := List.exists_cons_of_ne_nil hv
  have hv' : (WaterfallChart.init (v :: vs) names mname lname).step_values = v :: vs := rfl
  have hn' : (WaterfallChart.init (v :: vs) names mname lname).step_names.length =
      vs.length + 1 := by
    have h := init_names_length (v :: vs) names mname lname hn
    simpa using h
  obtain ⟨df, hdf⟩ : ∃ df,
      (WaterfallChart.init (v :: vs) names mname lname).prep_plot = Except.ok df :=
    ⟨_, prep_plot_ok _ v vs hv' hn'⟩
  have hlen := prep_plot_length _ v vs df hv' hn' hdf
  have h2 : 2 ≤ df.length := by omega
  refine ⟨df, hdf, ?_, ?_, ?_, ?_⟩
  · rw [plot_waterfall_truthy _ df (.bool true) ck hdf rfl, add_labels_bool_eq]
    exact (labels_loop_value true (create_color_list df ck).2 df
      (plot_link_lines (plot_bars [] df ck) df) 0
      (by rw [(create_color_list_length df ck h2).2]; omega)).1
  · rw [plot_waterfall_truthy _ df (.bool true) ck hdf rfl, add_labels_bool_eq]
    have hloop := labels_loop_value true (create_color_list df ck).2 df
      (plot_link_lines (plot_bars [] df ck) df) 0
      (by rw [(create_color_list_length df ck h2).2]; omega)
    rw [hloop.2, textLabels_base]
    simp
  · rw [show ((-30 : ℚ)) = (((-30 : ℤ) : ℚ)) by norm_num, truncRat_intCast]
    decide
  · rw [show ((-3000 : ℚ)) = (((-3000 : ℤ) : ℚ)) by norm_num, truncRat_intCast]
    decide

/-- Witness for C8 at a chart whose deltas are 100, -30, -3000 with
final value -2930: the rendered labels use integer formatting with a
thousands separator. -/
theorem claim_C8_witness :
    ((WaterfallChart.init [100, 70, -2930] ["a", "b", "c"] "" "").plot_waterfall
        (.bool true) ColorKwargs.empty).2 = none ∧
    textLabels ((WaterfallChart.init [100, 70, -2930] ["a", "b", "c"] "" "").plot_waterfall
        (.bool true) ColorKwargs.empty).1 = ["100", "-30", "-3,000", "-2,930"] := by
  obtain ⟨df, hdf, h1, h2, _, _⟩ :=
    claim_C8 [100, 70, -2930] ["a", "b", "c"] "" "" ColorKwargs.empty (by simp) (by simp)
  refine ⟨h1, ?_⟩
  rw [h2]
  have hok := prep_plot_ok (WaterfallChart.init [100, 70, -2930] ["a", "b", "c"] "" "")
    100 [70, -2930] rfl (by simp [WaterfallChart.init])
  rw [hok] at hdf
  injection hdf with h
  subst h
  simp [zip4, stepDeltas, WaterfallChart.init]
  refine ⟨?_, ?_, ?_, ?_⟩
  · rw [show ((100 : ℚ)) = (((100 : ℤ) : ℚ)) by norm_num, truncRat_intCast]
    decide
  · rw [show ((70 : ℚ) - 100) = (((-30 : ℤ) : ℚ)) by norm_num, truncRat_intCast]
    decide
  · rw [show ((-2930 : ℚ) - 70) = (((-3000 : ℤ) : ℚ)) by norm_num, truncRat_intCast]
    decide
  · rw [show ((-2930 : ℚ)) = (((-2930 : ℤ) : ℚ)) by norm_num, truncRat_intCast]
    decide

/-- C10: plot_waterfall with the empty string or the empty list as
bar_labels skips labelling entirely: no text is drawn and no
validation or length error is raised, even though a non-empty literal
string labels every bar and a non-empty too-short list raises the
IndexError. -/
theorem claim_C10 (values : List ℚ) (names : List String) (mname lname : String)
    (ck : ColorKwargs)
    (hv : values ≠ []) (hn : names ≠ [] → names.length = values.length) :
    (((WaterfallChart.init values names mname lname).plot_waterfall (.str "") ck).2 = none ∧
     textLabels ((WaterfallChart.init values names mname lname).plot_waterfall
        (.str "") ck).1 = []) ∧
    (((WaterfallChart.init values names mname lname).plot_waterfall (.list []) ck).2 = none ∧
     textLabels ((WaterfallChart.init values names mname lname).plot_waterfall
        (.list []) ck).1 = []) ∧
    (∀ s, s ≠ "" →
      ((WaterfallChart.init values names mname lname).plot_waterfall (.str s) ck).2 = none ∧
      textLabels ((WaterfallChart.init values names mname lname).plot_waterfall
          (.str s) ck).1 = List.replicate (values.length + 1) s) ∧
    (∀ l, l ≠ [] → l.length ≤ values.length →
      ((WaterfallChart.init values names mname lname).plot_waterfall (.list l) ck).2 =
        some "IndexError: list index out of range") := by
  obtain ⟨v, vs, rfl⟩ := List.exists_cons_of_ne_nil hv
  have hv' : (WaterfallChart.init (v :: vs) names mname lname).step_values = v :: vs := rfl
  have hn' : (WaterfallChart.init (v :: vs) names mname lname).step_names.length =
      vs.length + 1 := by
    have h := init_names_length (v :: vs) names mname lname hn
    simpa using h
  obtain ⟨df, hdf⟩ : ∃ df,
      (WaterfallChart.init (v :: vs) names mname lname).prep_plot = Except.ok df :=
    ⟨_, prep_plot_ok _ v vs hv' hn'⟩
  have hlen := prep_plot_length _ v vs df hv' hn' hdf
  have h2 : 2 ≤ df.length := by omega
  refine ⟨⟨?_, ?_⟩, ⟨?_, ?_⟩, ?_, ?_⟩
  · rw [plot_waterfall_falsy _ df (.str "") ck hdf (by decide)]
  · rw [plot_waterfall_falsy _ df (.str "") ck hdf (by decide)]
    exact textLabels_base df ck
  · rw [plot_waterfall_falsy _ df (.list []) ck hdf (by decide)]
  · rw [plot_waterfall_falsy _ df (.list []) ck hdf (by decide)]
    exact textLabels_base df ck
  · intro s hs
    have ht : pyTruthy (.str s) = true := by simp [pyTruthy, hs]
    rw [plot_waterfall_truthy _ df (.str s) ck hdf ht, add_labels_str_eq]
    have hloop := labels_loop_str s (create_color_list df ck).2 df
      (plot_link_lines (plot_bars [] df ck) df) 0
      (by rw [(create_color_list_length df ck h2).2]; omega)
    refine ⟨hloop.1, ?_⟩
    rw [hloop.2, textLabels_base]
    simp [hlen]
  · intro l hl hshort
    have ht : pyTruthy (.list l) = true := by simp [pyTruthy, hl]
    rw [plot_waterfall_truthy _ df (.list l) ck hdf ht, add_labels_list_eq]
    have hshort' : l.length < df.length := by simp at hshort; omega
    exact (labels_loop_list l (create_color_list df ck).2 df
      (plot_link_lines (plot_bars [] df ck) df) 0
      (by rw [(create_color_list_length df ck h2).2]; omega) (by simp)
      (by omega)).1

/-- Witness for C10 at a concrete two-step chart. -/
theorem claim_C10_witness :
    (((WaterfallChart.init [10, 20] [] "" "").plot_waterfall (.str "")
        ColorKwargs.empty).2 = none ∧
     textLabels ((WaterfallChart.init [10, 20] [] "" "").plot_waterfall
        (.str "") ColorKwargs.empty).1 = []) ∧
    (((WaterfallChart.init [10, 20] [] "" "").plot_waterfall (.list [])
        ColorKwargs.empty).2 = none ∧
     textLabels ((WaterfallChart.init [10, 20] [] "" "").plot_waterfall
        (.list []) ColorKwargs.empty).1 = []) ∧
    (∀ s, s ≠ "" →
      ((WaterfallChart.init [10, 20] [] "" "").plot_waterfall (.str s)
          ColorKwargs.empty).2 = none ∧
      textLabels ((WaterfallChart.init [10, 20] [] "" "").plot_waterfall
          (.str s) ColorKwargs.empty).1 =
        List.replicate (([10, 20] : List ℚ).length + 1) s) ∧
    (∀ l, l ≠ [] → l.length ≤ ([10, 20] : List ℚ).length →
      ((WaterfallChart.init [10, 20] [] "" "").plot_waterfall (.list l)
          ColorKwargs.empty).2 = some "IndexError: list index out of range") :=
  claim_C10 [10, 20] [] "" "" ColorKwargs.empty (by simp) (by simp)
